import Mathlib

/-!
# Verification of the MeetiX OS memory/capability core

Shallow embedding of the x86_64 virtual-address canonicalization
(`Kernel/src/arch/x86_64/addr/virt.rs`, `Kernel/src/addr/virt_addr.rs`),
the `KernFnPath` kernel-call encoding (`UKLibs/LibApiData/src/sys`),
the slab sub-heap allocator (`UKLibs/LibHeap/src/slab.rs`),
the locked lazy heap front-end (`UKLibs/LibHeap/src/locked.rs`) and the
`ObjId` capability handle (`UKLibs/LibApi/src/objs/object.rs`), together
with proofs of the specified properties.

Machine integers are modelled as `Nat` with explicit reductions modulo
`2 ^ 64` (usize), `2 ^ 32` (u32) and `2 ^ 16` (u16) where the source
relies on wrapping or truncating casts.
-/

/-- Source `HwVirtAddr::from(usize)` (x86_64): `((raw << 16) as isize >> 16) as usize`.
The left shift on `usize` wraps modulo `2 ^ 64`; `as isize` reinterprets the
64-bit pattern as two's complement (the `if`); `>> 16` on `isize` is an
arithmetic shift, i.e. floor division by `2 ^ 16` (Lean's `Int` division by a
positive divisor); `as usize` takes the two's-complement pattern back, i.e.
reduces modulo `2 ^ 64`. -/
def hwVirtAddrFrom (raw_virt_addr : Nat) : Nat :=
  (((if (raw_virt_addr * 65536) % 18446744073709551616 < 9223372036854775808
      then ((raw_virt_addr * 65536) % 18446744073709551616 : Int)
      else ((raw_virt_addr * 65536) % 18446744073709551616 : Int)
            - 18446744073709551616)
    / 65536)
   % 18446744073709551616).toNat

/-- Source `HwVirtAddr`: transparent wrapper holding the canonicalized raw value. -/
structure HwVirtAddr where
  m_raw_virt_addr : Nat
deriving DecidableEq

/-- Source `impl From<usize> for HwVirtAddr`. -/
def HwVirtAddr.fromUsize (raw_virt_addr : Nat) : HwVirtAddr :=
  { m_raw_virt_addr := hwVirtAddrFrom raw_virt_addr }

/-- Source `VirtAddr`: transparent wrapper over the hardware implementation. -/
structure VirtAddr where
  m_hw_virt_addr : HwVirtAddr
deriving DecidableEq

/-- Source `impl From<usize> for VirtAddr`. -/
def VirtAddr.fromUsize (raw_virt_addr : Nat) : VirtAddr :=
  { m_hw_virt_addr := HwVirtAddr.fromUsize raw_virt_addr }

/-- Source `Deref for VirtAddr` (through `Deref for HwVirtAddr`): the raw value. -/
def VirtAddr.raw (a : VirtAddr) : Nat :=
  a.m_hw_virt_addr.m_raw_virt_addr

/-! ## Kernel function call codes (`UKLibs/LibApiData/src/sys/codes.rs`)

Each Rust enum is `repr(u16)` with `IntoPrimitive`/`TryFromPrimitive`:
`toRaw` is the discriminant and `tryFrom` its partial inverse. -/

/-- Source `KernObjConfigFnId`. -/
inductive KernObjConfigFnId where
  | ApplyConfig
deriving DecidableEq

/-- Discriminant of `KernObjConfigFnId`. -/
def KernObjConfigFnId.toRaw : KernObjConfigFnId → Nat
  | .ApplyConfig => 0

/-- Source `TryFromPrimitive` for `KernObjConfigFnId`. -/
def KernObjConfigFnId.tryFrom (v : Nat) : Except Unit KernObjConfigFnId :=
  if v = 0 then .ok .ApplyConfig else .error ()

/-- Source `KernTaskConfigFnId`. -/
inductive KernTaskConfigFnId where
  | CreateTask
  | InitFind
deriving DecidableEq

/-- Discriminant of `KernTaskConfigFnId`. -/
def KernTaskConfigFnId.toRaw : KernTaskConfigFnId → Nat
  | .CreateTask => 0
  | .InitFind => 1

/-- Source `TryFromPrimitive` for `KernTaskConfigFnId`. -/
def KernTaskConfigFnId.tryFrom (v : Nat) : Except Unit KernTaskConfigFnId :=
  if v = 0 then .ok .CreateTask
  else if v = 1 then .ok .InitFind
  else .error ()

/-- Source `KernOsEntConfigFnId`. -/
inductive KernOsEntConfigFnId where
  | CreateEntity
  | InitFind
deriving DecidableEq

/-- Discriminant of `KernOsEntConfigFnId`. -/
def KernOsEntConfigFnId.toRaw : KernOsEntConfigFnId → Nat
  | .CreateEntity => 0
  | .InitFind => 1

/-- Source `TryFromPrimitive` for `KernOsEntConfigFnId`. -/
def KernOsEntConfigFnId.tryFrom (v : Nat) : Except Unit KernOsEntConfigFnId :=
  if v = 0 then .ok .CreateEntity
  else if v = 1 then .ok .InitFind
  else .error ()

/-- Source `KernObjectFnId`. -/
inductive KernObjectFnId where
  | AddRef
  | DropName
  | Info
  | UpdateInfo
  | Send
  | Recv
  | Watch
  | IsValid
deriving DecidableEq

/-- Discriminant of `KernObjectFnId`. -/
def KernObjectFnId.toRaw : KernObjectFnId → Nat
  | .AddRef => 0
  | .DropName => 1
  | .Info => 2
  | .UpdateInfo => 3
  | .Send => 4
  | .Recv => 5
  | .Watch => 6
  | .IsValid => 7

/-- Source `TryFromPrimitive` for `KernObjectFnId`. -/
def KernObjectFnId.tryFrom (v : Nat) : Except Unit KernObjectFnId :=
  if v = 0 then .ok .AddRef
  else if v = 1 then .ok .DropName
  else if v = 2 then .ok .Info
  else if v = 3 then .ok .UpdateInfo
  else if v = 4 then .ok .Send
  else if v = 5 then .ok .Recv
  else if v = 6 then .ok .Watch
  else if v = 7 then .ok .IsValid
  else .error ()

/-- Source `KernTaskFnId`. -/
inductive KernTaskFnId where
  | This
  | Terminate
  | Yield
  | IsAlive
deriving DecidableEq

/-- Discriminant of `KernTaskFnId`. -/
def KernTaskFnId.toRaw : KernTaskFnId → Nat
  | .This => 0
  | .Terminate => 1
  | .Yield => 2
  | .IsAlive => 3

/-- Source `TryFromPrimitive` for `KernTaskFnId`. -/
def KernTaskFnId.tryFrom (v : Nat) : Except Unit KernTaskFnId :=
  if v = 0 then .ok .This
  else if v = 1 then .ok .Terminate
  else if v = 2 then .ok .Yield
  else if v = 3 then .ok .IsAlive
  else .error ()

/-- Source `KernDeviceFnId`. -/
inductive KernDeviceFnId where
  | Read
  | Write
  | SetPos
  | MapToMem
  | IOSetup
deriving DecidableEq

/-- Discriminant of `KernDeviceFnId`. -/
def KernDeviceFnId.toRaw : KernDeviceFnId → Nat
  | .Read => 0
  | .Write => 1
  | .SetPos => 2
  | .MapToMem => 3
  | .IOSetup => 4

/-- Source `TryFromPrimitive` for `KernDeviceFnId`. -/
def KernDeviceFnId.tryFrom (v : Nat) : Except Unit KernDeviceFnId :=
  if v = 0 then .ok .Read
  else if v = 1 then .ok .Write
  else if v = 2 then .ok .SetPos
  else if v = 3 then .ok .MapToMem
  else if v = 4 then .ok .IOSetup
  else .error ()

/-- Source `KernDirFnId`. -/
inductive KernDirFnId where
  | InitIter
deriving DecidableEq

/-- Discriminant of `KernDirFnId`. -/
def KernDirFnId.toRaw : KernDirFnId → Nat
  | .InitIter => 0

/-- Source `TryFromPrimitive` for `KernDirFnId`. -/
def KernDirFnId.tryFrom (v : Nat) : Except Unit KernDirFnId :=
  if v = 0 then .ok .InitIter else .error ()

/-- Source `KernFileFnId`. -/
inductive KernFileFnId where
  | ReadData
  | WriteData
  | Copy
  | Move
  | SetPos
  | MapToMem
deriving DecidableEq

/-- Discriminant of `KernFileFnId`. -/
def KernFileFnId.toRaw : KernFileFnId → Nat
  | .ReadData => 0
  | .WriteData => 1
  | .Copy => 2
  | .Move => 3
  | .SetPos => 4
  | .MapToMem => 5

/-- Source `TryFromPrimitive` for `KernFileFnId`. -/
def KernFileFnId.tryFrom (v : Nat) : Except Unit KernFileFnId :=
  if v = 0 then .ok .ReadData
  else if v = 1 then .ok .WriteData
  else if v = 2 then .ok .Copy
  else if v = 3 then .ok .Move
  else if v = 4 then .ok .SetPos
  else if v = 5 then .ok .MapToMem
  else .error ()

/-- Source `KernIpcChanFnId`. -/
inductive KernIpcChanFnId where
  | Send
  | Recv
deriving DecidableEq

/-- Discriminant of `KernIpcChanFnId`. -/
def KernIpcChanFnId.toRaw : KernIpcChanFnId → Nat
  | .Send => 0
  | .Recv => 1

/-- Source `TryFromPrimitive` for `KernIpcChanFnId`. -/
def KernIpcChanFnId.tryFrom (v : Nat) : Except Unit KernIpcChanFnId :=
  if v = 0 then .ok .Send
  else if v = 1 then .ok .Recv
  else .error ()

/-- Source `KrnIteratorFnId`. -/
inductive KrnIteratorFnId where
  | NextValue
  | SetBeginToEndPos
  | SetEndToBeginPos
deriving DecidableEq

/-- Discriminant of `KrnIteratorFnId`. -/
def KrnIteratorFnId.toRaw : KrnIteratorFnId → Nat
  | .NextValue => 0
  | .SetBeginToEndPos => 1
  | .SetEndToBeginPos => 2

/-- Source `TryFromPrimitive` for `KrnIteratorFnId`. -/
def KrnIteratorFnId.tryFrom (v : Nat) : Except Unit KrnIteratorFnId :=
  if v = 0 then .ok .NextValue
  else if v = 1 then .ok .SetBeginToEndPos
  else if v = 2 then .ok .SetEndToBeginPos
  else .error ()

/-- Source `KernLinkFnId`. -/
inductive KernLinkFnId where
  | Deref
  | ReferTo
deriving DecidableEq

/-- Discriminant of `KernLinkFnId`. -/
def KernLinkFnId.toRaw : KernLinkFnId → Nat
  | .Deref => 0
  | .ReferTo => 1

/-- Source `TryFromPrimitive` for `KernLinkFnId`. -/
def KernLinkFnId.tryFrom (v : Nat) : Except Unit KernLinkFnId :=
  if v = 0 then .ok .Deref
  else if v = 1 then .ok .ReferTo
  else .error ()

/-- Source `KernMMapFnId`. -/
inductive KernMMapFnId where
  | GetPtr
  | DropPtr
  | IsFile
  | IsDevice
deriving DecidableEq

/-- Discriminant of `KernMMapFnId`. -/
def KernMMapFnId.toRaw : KernMMapFnId → Nat
  | .GetPtr => 0
  | .DropPtr => 1
  | .IsFile => 2
  | .IsDevice => 3

/-- Source `TryFromPrimitive` for `KernMMapFnId`. -/
def KernMMapFnId.tryFrom (v : Nat) : Except Unit KernMMapFnId :=
  if v = 0 then .ok .GetPtr
  else if v = 1 then .ok .DropPtr
  else if v = 2 then .ok .IsFile
  else if v = 3 then .ok .IsDevice
  else .error ()

/-- Source `KernMutexFnId`. -/
inductive KernMutexFnId where
  | Lock
  | TryLock
  | Unlock
  | IsLocked
deriving DecidableEq

/-- Discriminant of `KernMutexFnId`. -/
def KernMutexFnId.toRaw : KernMutexFnId → Nat
  | .Lock => 0
  | .TryLock => 1
  | .Unlock => 2
  | .IsLocked => 3

/-- Source `TryFromPrimitive` for `KernMutexFnId`. -/
def KernMutexFnId.tryFrom (v : Nat) : Except Unit KernMutexFnId :=
  if v = 0 then .ok .Lock
  else if v = 1 then .ok .TryLock
  else if v = 2 then .ok .Unlock
  else if v = 3 then .ok .IsLocked
  else .error ()

/-- Source `KernTimeInstFnId`. -/
inductive KernTimeInstFnId where
  | Now
deriving DecidableEq

/-- Discriminant of `KernTimeInstFnId`. -/
def KernTimeInstFnId.toRaw : KernTimeInstFnId → Nat
  | .Now => 0

/-- Source `TryFromPrimitive` for `KernTimeInstFnId`. -/
def KernTimeInstFnId.tryFrom (v : Nat) : Except Unit KernTimeInstFnId :=
  if v = 0 then .ok .Now else .error ()

/-- Source `KernPathFnId`. -/
inductive KernPathFnId where
  | Exists
deriving DecidableEq

/-- Discriminant of `KernPathFnId`. -/
def KernPathFnId.toRaw : KernPathFnId → Nat
  | .Exists => 0

/-- Source `TryFromPrimitive` for `KernPathFnId`. -/
def KernPathFnId.tryFrom (v : Nat) : Except Unit KernPathFnId :=
  if v = 0 then .ok .Exists else .error ()

/-- Source `KernOsEntFnId`. -/
inductive KernOsEntFnId where
  | Name
deriving DecidableEq

/-- Discriminant of `KernOsEntFnId`. -/
def KernOsEntFnId.toRaw : KernOsEntFnId → Nat
  | .Name => 0

/-- Source `TryFromPrimitive` for `KernOsEntFnId`. -/
def KernOsEntFnId.tryFrom (v : Nat) : Except Unit KernOsEntFnId :=
  if v = 0 then .ok .Name else .error ()

/-- Source `KernOsUserFnId`. -/
inductive KernOsUserFnId where
  | Groups
deriving DecidableEq

/-- Discriminant of `KernOsUserFnId`. -/
def KernOsUserFnId.toRaw : KernOsUserFnId → Nat
  | .Groups => 0

/-- Source `TryFromPrimitive` for `KernOsUserFnId`. -/
def KernOsUserFnId.tryFrom (v : Nat) : Except Unit KernOsUserFnId :=
  if v = 0 then .ok .Groups else .error ()

/-- Source `KernOsGroupFnId`. -/
inductive KernOsGroupFnId where
  | AddUser
deriving DecidableEq

/-- Discriminant of `KernOsGroupFnId`. -/
def KernOsGroupFnId.toRaw : KernOsGroupFnId → Nat
  | .AddUser => 0

/-- Source `TryFromPrimitive` for `KernOsGroupFnId`. -/
def KernOsGroupFnId.tryFrom (v : Nat) : Except Unit KernOsGroupFnId :=
  if v = 0 then .ok .AddUser else .error ()

/-- Source `KernProcFnId`. -/
inductive KernProcFnId where
  | MainThread
  | Mount
  | UnMount
deriving DecidableEq

/-- Discriminant of `KernProcFnId`. -/
def KernProcFnId.toRaw : KernProcFnId → Nat
  | .MainThread => 0
  | .Mount => 1
  | .UnMount => 2

/-- Source `TryFromPrimitive` for `KernProcFnId`. -/
def KernProcFnId.tryFrom (v : Nat) : Except Unit KernProcFnId :=
  if v = 0 then .ok .MainThread
  else if v = 1 then .ok .Mount
  else if v = 2 then .ok .UnMount
  else .error ()

/-- Source `KernThreadFnId`. -/
inductive KernThreadFnId where
  | WaitFor
  | AddCleaner
  | CallbackReturn
  | GetEntryData
deriving DecidableEq

/-- Discriminant of `KernThreadFnId`. -/
def KernThreadFnId.toRaw : KernThreadFnId → Nat
  | .WaitFor => 0
  | .AddCleaner => 1
  | .CallbackReturn => 2
  | .GetEntryData => 3

/-- Source `TryFromPrimitive` for `KernThreadFnId`. -/
def KernThreadFnId.tryFrom (v : Nat) : Except Unit KernThreadFnId :=
  if v = 0 then .ok .WaitFor
  else if v = 1 then .ok .AddCleaner
  else if v = 2 then .ok .CallbackReturn
  else if v = 3 then .ok .GetEntryData
  else .error ()

/-- Source `KernFnPath` (`UKLibs/LibApiData/src/sys/fn_path.rs`): one case per
kernel call class, each carrying the class-specific function id. -/
inductive KernFnPath where
  | ObjConfig (fn_id : KernObjConfigFnId)
  | TaskConfig (fn_id : KernTaskConfigFnId)
  | OsEntConfig (fn_id : KernOsEntConfigFnId)
  | Object (fn_id : KernObjectFnId)
  | Task (fn_id : KernTaskFnId)
  | Device (fn_id : KernDeviceFnId)
  | Dir (fn_id : KernDirFnId)
  | File (fn_id : KernFileFnId)
  | IpcChan (fn_id : KernIpcChanFnId)
  | Iterator (fn_id : KrnIteratorFnId)
  | Link (fn_id : KernLinkFnId)
  | MMap (fn_id : KernMMapFnId)
  | Mutex (fn_id : KernMutexFnId)
  | TimeInst (fn_id : KernTimeInstFnId)
  | Path (fn_id : KernPathFnId)
  | OsEntity (fn_id : KernOsEntFnId)
  | OsUser (fn_id : KernOsUserFnId)
  | OsGroup (fn_id : KernOsGroupFnId)
  | Proc (fn_id : KernProcFnId)
  | Thread (fn_id : KernThreadFnId)
deriving DecidableEq

/-- Source `KernFnPath::raw_fn_class`: the class tag as `u16`. -/
def KernFnPath.raw_fn_class : KernFnPath → Nat
  | .ObjConfig _ => 0
  | .TaskConfig _ => 1
  | .OsEntConfig _ => 2
  | .Object _ => 3
  | .Task _ => 4
  | .Device _ => 5
  | .Dir _ => 6
  | .File _ => 7
  | .IpcChan _ => 8
  | .Iterator _ => 9
  | .Link _ => 10
  | .MMap _ => 11
  | .Mutex _ => 12
  | .TimeInst _ => 13
  | .Path _ => 14
  | .OsEntity _ => 15
  | .OsUser _ => 16
  | .OsGroup _ => 17
  | .Proc _ => 18
  | .Thread _ => 19

/-- Source `KernFnPath::raw_fn_id`: the in-class function id as `u16`. -/
def KernFnPath.raw_fn_id : KernFnPath → Nat
  | .ObjConfig fn_id => fn_id.toRaw
  | .TaskConfig fn_id => fn_id.toRaw
  | .OsEntConfig fn_id => fn_id.toRaw
  | .Object fn_id => fn_id.toRaw
  | .Task fn_id => fn_id.toRaw
  | .Device fn_id => fn_id.toRaw
  | .Dir fn_id => fn_id.toRaw
  | .File fn_id => fn_id.toRaw
  | .IpcChan fn_id => fn_id.toRaw
  | .Iterator fn_id => fn_id.toRaw
  | .Link fn_id => fn_id.toRaw
  | .MMap fn_id => fn_id.toRaw
  | .Mutex fn_id => fn_id.toRaw
  | .TimeInst fn_id => fn_id.toRaw
  | .Path fn_id => fn_id.toRaw
  | .OsEntity fn_id => fn_id.toRaw
  | .OsUser fn_id => fn_id.toRaw
  | .OsGroup fn_id => fn_id.toRaw
  | .Proc fn_id => fn_id.toRaw
  | .Thread fn_id => fn_id.toRaw

/-- Source `TryFrom<(usize, usize)> for KernFnPath`: dispatch on the class tag,
then decode the function id. The source passes `value as u16` to the
per-class decoder, truncating the id modulo `2 ^ 16`. -/
def KernFnPath.tryFrom : Nat × Nat → Except Unit KernFnPath
  | (variant, value) =>
  if variant = 0 then
    match KernObjConfigFnId.tryFrom (value % 65536) with
    | .ok fn_id => .ok (.ObjConfig fn_id)
    | .error _ => .error ()
  else if variant = 1 then
    match KernTaskConfigFnId.tryFrom (value % 65536) with
    | .ok fn_id => .ok (.TaskConfig fn_id)
    | .error _ => .error ()
  else if variant = 2 then
    match KernOsEntConfigFnId.tryFrom (value % 65536) with
    | .ok fn_id => .ok (.OsEntConfig fn_id)
    | .error _ => .error ()
  else if variant = 3 then
    match KernObjectFnId.tryFrom (value % 65536) with
    | .ok fn_id => .ok (.Object fn_id)
    | .error _ => .error ()
  else if variant = 4 then
    match KernTaskFnId.tryFrom (value % 65536) with
    | .ok fn_id => .ok (.Task fn_id)
    | .error _ => .error ()
  else if variant = 5 then
    match KernDeviceFnId.tryFrom (value % 65536) with
    | .ok fn_id => .ok (.Device fn_id)
    | .error _ => .error ()
  else if variant = 6 then
    match KernDirFnId.tryFrom (value % 65536) with
    | .ok fn_id => .ok (.Dir fn_id)
    | .error _ => .error ()
  else if variant = 7 then
    match KernFileFnId.tryFrom (value % 65536) with
    | .ok fn_id => .ok (.File fn_id)
    | .error _ => .error ()
  else if variant = 8 then
    match KernIpcChanFnId.tryFrom (value % 65536) with
    | .ok fn_id => .ok (.IpcChan fn_id)
    | .error _ => .error ()
  else if variant = 9 then
    match KrnIteratorFnId.tryFrom (value % 65536) with
    | .ok fn_id => .ok (.Iterator fn_id)
    | .error _ => .error ()
  else if variant = 10 then
    match KernLinkFnId.tryFrom (value % 65536) with
    | .ok fn_id => .ok (.Link fn_id)
    | .error _ => .error ()
  else if variant = 11 then
    match KernMMapFnId.tryFrom (value % 65536) with
    | .ok fn_id => .ok (.MMap fn_id)
    | .error _ => .error ()
  else if variant = 12 then
    match KernMutexFnId.tryFrom (value % 65536) with
    | .ok fn_id => .ok (.Mutex fn_id)
    | .error _ => .error ()
  else if variant = 13 then
    match KernTimeInstFnId.tryFrom (value % 65536) with
    | .ok fn_id => .ok (.TimeInst fn_id)
    | .error _ => .error ()
  else if variant = 14 then
    match KernPathFnId.tryFrom (value % 65536) with
    | .ok fn_id => .ok (.Path fn_id)
    | .error _ => .error ()
  else if variant = 15 then
    match KernOsEntFnId.tryFrom (value % 65536) with
    | .ok fn_id => .ok (.OsEntity fn_id)
    | .error _ => .error ()
  else if variant = 16 then
    match KernOsUserFnId.tryFrom (value % 65536) with
    | .ok fn_id => .ok (.OsUser fn_id)
    | .error _ => .error ()
  else if variant = 17 then
    match KernOsGroupFnId.tryFrom (value % 65536) with
    | .ok fn_id => .ok (.OsGroup fn_id)
    | .error _ => .error ()
  else if variant = 18 then
    match KernProcFnId.tryFrom (value % 65536) with
    | .ok fn_id => .ok (.Proc fn_id)
    | .error _ => .error ()
  else if variant = 19 then
    match KernThreadFnId.tryFrom (value % 65536) with
    | .ok fn_id => .ok (.Thread fn_id)
    | .error _ => .error ()
  else .error ()

/-- All declared `KernFnPath` values (every class with every in-class id). -/
def allKernFnPaths : List KernFnPath :=
  [.ObjConfig .ApplyConfig,
   .TaskConfig .CreateTask, .TaskConfig .InitFind,
   .OsEntConfig .CreateEntity, .OsEntConfig .InitFind,
   .Object .AddRef, .Object .DropName, .Object .Info, .Object .UpdateInfo,
   .Object .Send, .Object .Recv, .Object .Watch, .Object .IsValid,
   .Task .This, .Task .Terminate, .Task .Yield, .Task .IsAlive,
   .Device .Read, .Device .Write, .Device .SetPos, .Device .MapToMem,
   .Device .IOSetup,
   .Dir .InitIter,
   .File .ReadData, .File .WriteData, .File .Copy, .File .Move,
   .File .SetPos, .File .MapToMem,
   .IpcChan .Send, .IpcChan .Recv,
   .Iterator .NextValue, .Iterator .SetBeginToEndPos,
   .Iterator .SetEndToBeginPos,
   .Link .Deref, .Link .ReferTo,
   .MMap .GetPtr, .MMap .DropPtr, .MMap .IsFile, .MMap .IsDevice,
   .Mutex .Lock, .Mutex .TryLock, .Mutex .Unlock, .Mutex .IsLocked,
   .TimeInst .Now,
   .Path .Exists,
   .OsEntity .Name,
   .OsUser .Groups,
   .OsGroup .AddUser,
   .Proc .MainThread, .Proc .Mount, .Proc .UnMount,
   .Thread .WaitFor, .Thread .AddCleaner, .Thread .CallbackReturn,
   .Thread .GetEntryData]

/-- Whether `(fn_class, fn_id)` is the raw encoding of a declared
`KernFnPath` value. -/
def KernFnPath.declaredPair (fn_class fn_id : Nat) : Bool :=
  allKernFnPaths.any
    (fun p => p.raw_fn_class == fn_class && p.raw_fn_id == fn_id)

/-! ## Slab sub-heap allocator (`UKLibs/LibHeap/src/slab.rs`)

The intrusive singly linked free list threaded through unused blocks is
modelled as the list of block addresses reachable from `m_first`, next to
the maintained `m_count` field. `BLOCK_SIZE`, a const generic in the
source, becomes an explicit argument of the operations that use it. -/

/-- Source `core::alloc::Layout`: requested size and alignment. -/
structure Layout where
  size : Nat
  align : Nat
deriving DecidableEq

/-- Source `FreeBlockList`: head chain plus maintained count. -/
structure FreeBlockList where
  m_first : List Nat
  m_count : Nat
deriving DecidableEq

/-- Source `FreeBlockList::push`: prepend the block, increment the count. -/
def FreeBlockList.push (l : FreeBlockList) (block : Nat) : FreeBlockList :=
  { m_first := block :: l.m_first, m_count := l.m_count + 1 }

/-- Source `FreeBlockList::pop`: take the head block, decrement the count. -/
def FreeBlockList.pop (l : FreeBlockList) : Option Nat × FreeBlockList :=
  match l.m_first with
  | [] => (none, l)
  | block :: rest => (some block, { m_first := rest, m_count := l.m_count - 1 })

/-- Source `FreeBlockList::extend`: `for i in (0..area_size / block_size).rev()`,
push the block at `start_area_addr + i * block_size`. -/
def FreeBlockList.extend (l : FreeBlockList)
    (start_area_addr area_size block_size : Nat) : FreeBlockList :=
  (List.range (area_size / block_size)).reverse.foldl
    (fun fl i => fl.push (start_area_addr + i * block_size)) l

/-- Source `FreeBlockList::new`: extend the default (empty) list. -/
def FreeBlockList.new (start_area_addr area_size block_size : Nat) :
    FreeBlockList :=
  FreeBlockList.extend { m_first := [], m_count := 0 }
    start_area_addr area_size block_size

/-- Source `Slab<BLOCK_SIZE>`. -/
structure Slab where
  m_free_blocks : FreeBlockList
deriving DecidableEq

/-- Source `Slab::new`. -/
def Slab.new (BLOCK_SIZE start_area_addr area_size : Nat) : Slab :=
  { m_free_blocks :=
      FreeBlockList.new start_area_addr area_size BLOCK_SIZE }

/-- Source `Slab::free_count`. -/
def Slab.free_count (s : Slab) : Nat :=
  s.m_free_blocks.m_count

/-- Source `Slab::allocate` (`SubHeapAllocator`): pop the free-list head; the
layout parameter is unused by the source. -/
def Slab.allocate (s : Slab) (_layout : Layout) : Option Nat × Slab :=
  match s.m_free_blocks.pop with
  | (block, fl) => (block, { m_free_blocks := fl })

/-- Source `Slab::deallocate`: push the pointer back onto the free list. -/
def Slab.deallocate (s : Slab) (nn_ptr : Nat) (_layout : Layout) : Slab :=
  { m_free_blocks := s.m_free_blocks.push nn_ptr }

/-- Source `Slab::add_region`: split off the remainder that is not a multiple of
the block size, extend the free list over the usable bytes, and return the
remainder region if any. -/
def Slab.add_region (BLOCK_SIZE : Nat) (s : Slab)
    (start_area_ptr area_size : Nat) : Slab × Option (Nat × Nat) :=
  let exceeding_area_size := area_size % BLOCK_SIZE
  let usable_area_size :=
    if exceeding_area_size > 0
      then area_size - exceeding_area_size
      else area_size
  ({ m_free_blocks :=
       s.m_free_blocks.extend start_area_ptr usable_area_size BLOCK_SIZE },
   if exceeding_area_size > 0
     then some (start_area_ptr + usable_area_size, exceeding_area_size)
     else none)

/-- Repeated allocation: `allocIter s layout k` is the slab after `k`
successive `allocate` calls. -/
def Slab.allocIter (s : Slab) (layout : Layout) : Nat → Slab
  | 0 => s
  | k + 1 => ((s.allocIter layout k).allocate layout).2

/-! ## `ObjId` capability handle (`UKLibs/LibApi/src/objs/object.rs`)

Kernel calls are modelled by an oracle
`k : ObjFnId → Except Unit Nat` standing for `KernCaller::kern_call_0`;
each operation returns its result together with the ordered list of
kernel calls it issued, so "performs zero kernel calls" is `= []`. -/

/-- Modelled from the spec: `object.rs` names its kernel calls through the
`os` crate's `os::sysc::codes::KernObjectFnId`, whose declaration is not
among the given sources (unlike `LibApiData`'s enum of the same name, it
also carries a `Drop` id). Only the object-class function ids that
`object.rs` actually issues are modelled, as distinct opaque tags. -/
inductive ObjFnId where
  | AddRef
  | DropName
  | Info
  | UpdateInfo
  | Send
  | Recv
  | Watch
  | IsValid
  | Drop
deriving DecidableEq

/-- Source `ObjId`: transparent wrapper over the raw `u32` handle. -/
structure ObjId where
  m_raw : Nat
deriving DecidableEq

/-- Source `ObjId::is_valid`: `m_raw != 0 && kern_call_0(IsValid).map(|_| true)
.unwrap_or(false)`; the `&&` short-circuits, so a zero handle performs no
kernel call. -/
def ObjId.is_valid (k : ObjFnId → Except Unit Nat) (o : ObjId) :
    Bool × List ObjFnId :=
  if o.m_raw ≠ 0 then
    match k (ObjFnId.IsValid) with
    | .ok _ => (true, [ObjFnId.IsValid])
    | .error _ => (false, [ObjFnId.IsValid])
  else (false, [])

/-- Source `Drop for ObjId`: `if self.is_valid() { kern_call_0(Drop).unwrap() }`;
returns the kernel calls issued. -/
def ObjId.drop (k : ObjFnId → Except Unit Nat) (o : ObjId) :
    List ObjFnId :=
  if (o.is_valid k).1
    then (o.is_valid k).2 ++ [ObjFnId.Drop]
    else (o.is_valid k).2

/-- Source `Clone for ObjId`: `kern_call_0(AddRef).map(|_| Self::from(self.m_raw))
.unwrap()`; `none` models the panic of `.unwrap()` on `Err`. -/
def ObjId.clone (k : ObjFnId → Except Unit Nat) (o : ObjId) :
    Option ObjId × List ObjFnId :=
  match k (ObjFnId.AddRef) with
  | .ok _ => (some ⟨o.m_raw⟩, [ObjFnId.AddRef])
  | .error _ => (none, [ObjFnId.AddRef])

/-- Modelled from the spec: the kernel-side reference-count bookkeeping is
not among the given sources (the kernel's object table is external); the
spec states that each `AddRef` kernel call increments the referenced
object's count by one, so a mock kernel's count after a call trace is the
initial count plus the number of `AddRef` calls in the trace. -/
def mockRefCount (initial : Nat) (trace : List ObjFnId) : Nat :=
  initial + trace.count (ObjFnId.AddRef)

/-! ## Locked lazy heap front-end (`UKLibs/LibHeap/src/locked.rs`)

The inner `Heap` type (`crate::Heap`) is not among the given sources; the
`GlobalAlloc` impl is generic in it, so the locked heap's `allocate` is a
parameter. Pointers are addresses (`Nat`), null being `0`. -/

/-- Source `NonNull::new`: `Some` exactly on non-null pointers. -/
def NonNull.new (ptr : Nat) : Option Nat :=
  if ptr ≠ 0 then some ptr else none

/-- Outcome of `GlobalAlloc::dealloc`: either the pointer (with its
layout) reaches `Heap::deallocate`, or the call panics. -/
inductive DeallocOutcome where
  | deallocated (nn_ptr : Nat) (layout : Layout)
  | panicked
deriving DecidableEq

/-- Source `GlobalAlloc::alloc for RawLazyLockedHeap`:
`lock().allocate(layout).map_or(null_mut(), |nn| nn.as_ptr())`. -/
def RawLazyLockedHeap.alloc (heap_allocate : Layout → Option Nat)
    (layout : Layout) : Nat :=
  match heap_allocate layout with
  | some nn_ptr => nn_ptr
  | none => 0

/-- Source `GlobalAlloc::dealloc for RawLazyLockedHeap`:
`if let Some(nn_ptr) = NonNull::new(ptr) { lock().deallocate(nn_ptr,
layout) } else { panic!(..) }`. -/
def RawLazyLockedHeap.dealloc (ptr : Nat) (layout : Layout) :
    DeallocOutcome :=
  match NonNull.new ptr with
  | some nn_ptr => .deallocated nn_ptr layout
  | none => .panicked

/-- Closed form of the canonicalization: keep the low 48 bits and
sign-extend bit 47 into bits 48..63. -/
theorem hwVirtAddrFrom_eq (x : Nat) :
    hwVirtAddrFrom x =
      if x % 281474976710656 < 140737488355328
        then x % 281474976710656
        else x % 281474976710656 + 18446462598732840960 := by
  unfold hwVirtAddrFrom
  split_ifs <;> omega

/-- The canonicalized value, divided by `2 ^ 47`, is either `0` (bit 47
clear) or `2 ^ 17 - 1` (bit 47 set and extended). -/
theorem hwVirtAddrFrom_div_two_pow_47 (x : Nat) :
    hwVirtAddrFrom x / 2 ^ 47 = 0 ∨ hwVirtAddrFrom x / 2 ^ 47 = 131071 := by
  have hchar := hwVirtAddrFrom_eq x
  have h47 : (2 : Nat) ^ 47 = 140737488355328 := by norm_num
  rw [h47]
  by_cases hcase : x % 281474976710656 < 140737488355328
  · left
    rw [if_pos hcase] at hchar
    omega
  · right
    rw [if_neg hcase] at hchar
    omega

/-- If `n / 2 ^ 47` is `0` or `2 ^ 17 - 1` then every bit of `n` in
positions `47..63` agrees with bit 47. -/
theorem testBit_eq_47_of_div (n i : Nat) (h1 : 47 ≤ i) (h2 : i ≤ 63)
    (hd : n / 2 ^ 47 = 0 ∨ n / 2 ^ 47 = 131071) :
    Nat.testBit n i = Nat.testBit n 47 := by
  have hdd : n / 2 ^ i = n / 2 ^ 47 / 2 ^ (i - 47) := by
    rw [Nat.div_div_eq_div_mul, ← pow_add]
    congr 2
    omega
  rw [Nat.testBit_to_div_mod, Nat.testBit_to_div_mod, hdd]
  rcases hd with h | h <;> rw [h]
  · simp
  · have hj : i - 47 ≤ 16 := by omega
    set j := i - 47 with hjdef
    clear_value j
    interval_cases j <;> rfl

/-- C1: for every `usize x`, the raw value of `VirtAddr::from(x)` is
canonical: each of bits 48..63 equals bit 47 (the value being `x` shifted
left by 16 then arithmetic-shifted right by 16). -/
theorem virtAddr_from_canonical (x i : Nat) (h1 : 48 ≤ i) (h2 : i ≤ 63) :
    Nat.testBit (VirtAddr.fromUsize x).raw i
      = Nat.testBit (VirtAddr.fromUsize x).raw 47 := by
  show Nat.testBit (hwVirtAddrFrom x) i = Nat.testBit (hwVirtAddrFrom x) 47
  exact testBit_eq_47_of_div _ i (by omega) h2 (hwVirtAddrFrom_div_two_pow_47 x)

/-- Witness for C1 at the concrete input `x = 123456789123456789`,
`i = 50`. -/
theorem virtAddr_from_canonical_witness :
    48 ≤ 50 ∧ (50 : Nat) ≤ 63
    ∧ Nat.testBit (VirtAddr.fromUsize 123456789123456789).raw 50
        = Nat.testBit (VirtAddr.fromUsize 123456789123456789).raw 47 :=
  ⟨by decide, by decide,
   virtAddr_from_canonical 123456789123456789 50 (by decide) (by decide)⟩

/-- C2: canonicalization is idempotent: re-canonicalizing the raw value of a
`VirtAddr` leaves it unchanged, so any value produced by this module
round-trips losslessly through `usize`. -/
theorem virtAddr_from_idempotent (x : Nat) :
    (VirtAddr.fromUsize (VirtAddr.fromUsize x).raw).raw
      = (VirtAddr.fromUsize x).raw := by
  show hwVirtAddrFrom (hwVirtAddrFrom x) = hwVirtAddrFrom x
  have h1 := hwVirtAddrFrom_eq x
  have h2 := hwVirtAddrFrom_eq (hwVirtAddrFrom x)
  split_ifs at h1 h2 <;> omega

/-- C3 (round-trip half): every declared `KernFnPath` survives the raw
`(class, id)` encoding and `TryFrom` reconstruction unchanged. -/
theorem kernFnPath_roundtrip (p : KernFnPath) :
    KernFnPath.tryFrom (p.raw_fn_class, p.raw_fn_id) = .ok p := by
  rcases p with f | f | f | f | f | f | f | f | f | f | f | f | f | f | f | f | f | f | f | f
    <;> cases f <;> rfl

/-- C3 counterexample: `(0, 65536)` encodes no declared pair (all declared
ids are below `2 ^ 16`), yet `try_from` does not return `Err`: the id is
truncated `as u16` to `0` and decodes to `ObjConfig(ApplyConfig)`. -/
theorem kernFnPath_tryFrom_truncates :
    KernFnPath.declaredPair 0 65536 = false
    ∧ KernFnPath.tryFrom (0, 65536)
        = .ok (KernFnPath.ObjConfig KernObjConfigFnId.ApplyConfig) := by
  constructor
  · decide
  · rfl

/-- Evaluating `KernObjConfigFnId.tryFrom` on a non-discriminant value. -/
theorem kernObjConfigFnId_tryFrom_notDecl (v : Nat) (h0 : v ≠ 0) :
    KernObjConfigFnId.tryFrom v = .error () := by
  simp [KernObjConfigFnId.tryFrom, h0]

/-- Evaluating `KernTaskConfigFnId.tryFrom` on a non-discriminant value. -/
theorem kernTaskConfigFnId_tryFrom_notDecl (v : Nat) (h0 : v ≠ 0)
    (h1 : v ≠ 1) : KernTaskConfigFnId.tryFrom v = .error () := by
  simp [KernTaskConfigFnId.tryFrom, h0, h1]

/-- Evaluating `KernOsEntConfigFnId.tryFrom` on a non-discriminant value. -/
theorem kernOsEntConfigFnId_tryFrom_notDecl (v : Nat) (h0 : v ≠ 0)
    (h1 : v ≠ 1) : KernOsEntConfigFnId.tryFrom v = .error () := by
  simp [KernOsEntConfigFnId.tryFrom, h0, h1]

/-- Evaluating `KernObjectFnId.tryFrom` on a non-discriminant value. -/
theorem kernObjectFnId_tryFrom_notDecl (v : Nat) (h0 : v ≠ 0) (h1 : v ≠ 1)
    (h2 : v ≠ 2) (h3 : v ≠ 3) (h4 : v ≠ 4) (h5 : v ≠ 5) (h6 : v ≠ 6)
    (h7 : v ≠ 7) : KernObjectFnId.tryFrom v = .error () := by
  simp [KernObjectFnId.tryFrom, h0, h1, h2, h3, h4, h5, h6, h7]

/-- Evaluating `KernTaskFnId.tryFrom` on a non-discriminant value. -/
theorem kernTaskFnId_tryFrom_notDecl (v : Nat) (h0 : v ≠ 0) (h1 : v ≠ 1)
    (h2 : v ≠ 2) (h3 : v ≠ 3) : KernTaskFnId.tryFrom v = .error () := by
  simp [KernTaskFnId.tryFrom, h0, h1, h2, h3]

/-- Evaluating `KernDeviceFnId.tryFrom` on a non-discriminant value. -/
theorem kernDeviceFnId_tryFrom_notDecl (v : Nat) (h0 : v ≠ 0) (h1 : v ≠ 1)
    (h2 : v ≠ 2) (h3 : v ≠ 3) (h4 : v ≠ 4) :
    KernDeviceFnId.tryFrom v = .error () := by
  simp [KernDeviceFnId.tryFrom, h0, h1, h2, h3, h4]

/-- Evaluating `KernDirFnId.tryFrom` on a non-discriminant value. -/
theorem kernDirFnId_tryFrom_notDecl (v : Nat) (h0 : v ≠ 0) :
    KernDirFnId.tryFrom v = .error () := by
  simp [KernDirFnId.tryFrom, h0]

/-- Evaluating `KernFileFnId.tryFrom` on a non-discriminant value. -/
theorem kernFileFnId_tryFrom_notDecl (v : Nat) (h0 : v ≠ 0) (h1 : v ≠ 1)
    (h2 : v ≠ 2) (h3 : v ≠ 3) (h4 : v ≠ 4) (h5 : v ≠ 5) :
    KernFileFnId.tryFrom v = .error () := by
  simp [KernFileFnId.tryFrom, h0, h1, h2, h3, h4, h5]

/-- Evaluating `KernIpcChanFnId.tryFrom` on a non-discriminant value. -/
theorem kernIpcChanFnId_tryFrom_notDecl (v : Nat) (h0 : v ≠ 0)
    (h1 : v ≠ 1) : KernIpcChanFnId.tryFrom v = .error () := by
  simp [KernIpcChanFnId.tryFrom, h0, h1]

/-- Evaluating `KrnIteratorFnId.tryFrom` on a non-discriminant value. -/
theorem krnIteratorFnId_tryFrom_notDecl (v : Nat) (h0 : v ≠ 0) (h1 : v ≠ 1)
    (h2 : v ≠ 2) : KrnIteratorFnId.tryFrom v = .error () := by
  simp [KrnIteratorFnId.tryFrom, h0, h1, h2]

/-- Evaluating `KernLinkFnId.tryFrom` on a non-discriminant value. -/
theorem kernLinkFnId_tryFrom_notDecl (v : Nat) (h0 : v ≠ 0) (h1 : v ≠ 1) :
    KernLinkFnId.tryFrom v = .error () := by
  simp [KernLinkFnId.tryFrom, h0, h1]

/-- Evaluating `KernMMapFnId.tryFrom` on a non-discriminant value. -/
theorem kernMMapFnId_tryFrom_notDecl (v : Nat) (h0 : v ≠ 0) (h1 : v ≠ 1)
    (h2 : v ≠ 2) (h3 : v ≠ 3) : KernMMapFnId.tryFrom v = .error () := by
  simp [KernMMapFnId.tryFrom, h0, h1, h2, h3]

/-- Evaluating `KernMutexFnId.tryFrom` on a non-discriminant value. -/
theorem kernMutexFnId_tryFrom_notDecl (v : Nat) (h0 : v ≠ 0) (h1 : v ≠ 1)
    (h2 : v ≠ 2) (h3 : v ≠ 3) : KernMutexFnId.tryFrom v = .error () := by
  simp [KernMutexFnId.tryFrom, h0, h1, h2, h3]

/-- Evaluating `KernTimeInstFnId.tryFrom` on a non-discriminant value. -/
theorem kernTimeInstFnId_tryFrom_notDecl (v : Nat) (h0 : v ≠ 0) :
    KernTimeInstFnId.tryFrom v = .error () := by
  simp [KernTimeInstFnId.tryFrom, h0]

/-- Evaluating `KernPathFnId.tryFrom` on a non-discriminant value. -/
theorem kernPathFnId_tryFrom_notDecl (v : Nat) (h0 : v ≠ 0) :
    KernPathFnId.tryFrom v = .error () := by
  simp [KernPathFnId.tryFrom, h0]

/-- Evaluating `KernOsEntFnId.tryFrom` on a non-discriminant value. -/
theorem kernOsEntFnId_tryFrom_notDecl (v : Nat) (h0 : v ≠ 0) :
    KernOsEntFnId.tryFrom v = .error () := by
  simp [KernOsEntFnId.tryFrom, h0]

/-- Evaluating `KernOsUserFnId.tryFrom` on a non-discriminant value. -/
theorem kernOsUserFnId_tryFrom_notDecl (v : Nat) (h0 : v ≠ 0) :
    KernOsUserFnId.tryFrom v = .error () := by
  simp [KernOsUserFnId.tryFrom, h0]

/-- Evaluating `KernOsGroupFnId.tryFrom` on a non-discriminant value. -/
theorem kernOsGroupFnId_tryFrom_notDecl (v : Nat) (h0 : v ≠ 0) :
    KernOsGroupFnId.tryFrom v = .error () := by
  simp [KernOsGroupFnId.tryFrom, h0]

/-- Evaluating `KernProcFnId.tryFrom` on a non-discriminant value. -/
theorem kernProcFnId_tryFrom_notDecl (v : Nat) (h0 : v ≠ 0) (h1 : v ≠ 1)
    (h2 : v ≠ 2) : KernProcFnId.tryFrom v = .error () := by
  simp [KernProcFnId.tryFrom, h0, h1, h2]

/-- Evaluating `KernThreadFnId.tryFrom` on a non-discriminant value. -/
theorem kernThreadFnId_tryFrom_notDecl (v : Nat) (h0 : v ≠ 0) (h1 : v ≠ 1)
    (h2 : v ≠ 2) (h3 : v ≠ 3) : KernThreadFnId.tryFrom v = .error () := by
  simp [KernThreadFnId.tryFrom, h0, h1, h2, h3]

/-- A class tag of 20 or more always decodes to `Err`. -/
theorem kernFnPath_tryFrom_class_ge_twenty (c v : Nat) :
    KernFnPath.tryFrom (c + 20, v) = .error () := rfl

/-- For any id below `2 ^ 16` that is not a declared in-class id (and any
class tag), the reconstruction returns `Err`. -/
theorem kernFnPath_tryFrom_err (fn_class fn_id : Nat) (hv : fn_id < 65536)
    (hd : KernFnPath.declaredPair fn_class fn_id = false) :
    KernFnPath.tryFrom (fn_class, fn_id) = .error () := by
  have hm : fn_id % 65536 = fn_id := Nat.mod_eq_of_lt hv
  by_cases h0 : fn_class = 0
  · subst h0
    show (match KernObjConfigFnId.tryFrom (fn_id % 65536) with
          | Except.ok fn_id => Except.ok (KernFnPath.ObjConfig fn_id)
          | Except.error _ => Except.error ()) = Except.error ()
    rw [hm, kernObjConfigFnId_tryFrom_notDecl fn_id
          (by rintro rfl; exact absurd hd (by decide))]
  by_cases h1 : fn_class = 1
  · subst h1
    show (match KernTaskConfigFnId.tryFrom (fn_id % 65536) with
          | Except.ok fn_id => Except.ok (KernFnPath.TaskConfig fn_id)
          | Except.error _ => Except.error ()) = Except.error ()
    rw [hm, kernTaskConfigFnId_tryFrom_notDecl fn_id
          (by rintro rfl; exact absurd hd (by decide))
          (by rintro rfl; exact absurd hd (by decide))]
  by_cases h2 : fn_class = 2
  · subst h2
    show (match KernOsEntConfigFnId.tryFrom (fn_id % 65536) with
          | Except.ok fn_id => Except.ok (KernFnPath.OsEntConfig fn_id)
          | Except.error _ => Except.error ()) = Except.error ()
    rw [hm, kernOsEntConfigFnId_tryFrom_notDecl fn_id
          (by rintro rfl; exact absurd hd (by decide))
          (by rintro rfl; exact absurd hd (by decide))]
  by_cases h3 : fn_class = 3
  · subst h3
    show (match KernObjectFnId.tryFrom (fn_id % 65536) with
          | Except.ok fn_id => Except.ok (KernFnPath.Object fn_id)
          | Except.error _ => Except.error ()) = Except.error ()
    rw [hm, kernObjectFnId_tryFrom_notDecl fn_id
          (by rintro rfl; exact absurd hd (by decide))
          (by rintro rfl; exact absurd hd (by decide))
          (by rintro rfl; exact absurd hd (by decide))
          (by rintro rfl; exact absurd hd (by decide))
          (by rintro rfl; exact absurd hd (by decide))
          (by rintro rfl; exact absurd hd (by decide))
          (by rintro rfl; exact absurd hd (by decide))
          (by rintro rfl; exact absurd hd (by decide))]
  by_cases h4 : fn_class = 4
  · subst h4
    show (match KernTaskFnId.tryFrom (fn_id % 65536) with
          | Except.ok fn_id => Except.ok (KernFnPath.Task fn_id)
          | Except.error _ => Except.error ()) = Except.error ()
    rw [hm, kernTaskFnId_tryFrom_notDecl fn_id
          (by rintro rfl; exact absurd hd (by decide))
          (by rintro rfl; exact absurd hd (by decide))
          (by rintro rfl; exact absurd hd (by decide))
          (by rintro rfl; exact absurd hd (by decide))]
  by_cases h5 : fn_class = 5
  · subst h5
    show (match KernDeviceFnId.tryFrom (fn_id % 65536) with
          | Except.ok fn_id => Except.ok (KernFnPath.Device fn_id)
          | Except.error _ => Except.error ()) = Except.error ()
    rw [hm, kernDeviceFnId_tryFrom_notDecl fn_id
          (by rintro rfl; exact absurd hd (by decide))
          (by rintro rfl; exact absurd hd (by decide))
          (by rintro rfl; exact absurd hd (by decide))
          (by rintro rfl; exact absurd hd (by decide))
          (by rintro rfl; exact absurd hd (by decide))]
  by_cases h6 : fn_class = 6
  · subst h6
    show (match KernDirFnId.tryFrom (fn_id % 65536) with
          | Except.ok fn_id => Except.ok (KernFnPath.Dir fn_id)
          | Except.error _ => Except.error ()) = Except.error ()
    rw [hm, kernDirFnId_tryFrom_notDecl fn_id
          (by rintro rfl; exact absurd hd (by decide))]
  by_cases h7 : fn_class = 7
  · subst h7
    show (match KernFileFnId.tryFrom (fn_id % 65536) with
          | Except.ok fn_id => Except.ok (KernFnPath.File fn_id)
          | Except.error _ => Except.error ()) = Except.error ()
    rw [hm, kernFileFnId_tryFrom_notDecl fn_id
          (by rintro rfl; exact absurd hd (by decide))
          (by rintro rfl; exact absurd hd (by decide))
          (by rintro rfl; exact absurd hd (by decide))
          (by rintro rfl; exact absurd hd (by decide))
          (by rintro rfl; exact absurd hd (by decide))
          (by rintro rfl; exact absurd hd (by decide))]
  by_cases h8 : fn_class = 8
  · subst h8
    show (match KernIpcChanFnId.tryFrom (fn_id % 65536) with
          | Except.ok fn_id => Except.ok (KernFnPath.IpcChan fn_id)
          | Except.error _ => Except.error ()) = Except.error ()
    rw [hm, kernIpcChanFnId_tryFrom_notDecl fn_id
          (by rintro rfl; exact absurd hd (by decide))
          (by rintro rfl; exact absurd hd (by decide))]
  by_cases h9 : fn_class = 9
  · subst h9
    show (match KrnIteratorFnId.tryFrom (fn_id % 65536) with
          | Except.ok fn_id => Except.ok (KernFnPath.Iterator fn_id)
          | Except.error _ => Except.error ()) = Except.error ()
    rw [hm, krnIteratorFnId_tryFrom_notDecl fn_id
          (by rintro rfl; exact absurd hd (by decide))
          (by rintro rfl; exact absurd hd (by decide))
          (by rintro rfl; exact absurd hd (by decide))]
  by_cases h10 : fn_class = 10
  · subst h10
    show (match KernLinkFnId.tryFrom (fn_id % 65536) with
          | Except.ok fn_id => Except.ok (KernFnPath.Link fn_id)
          | Except.error _ => Except.error ()) = Except.error ()
    rw [hm, kernLinkFnId_tryFrom_notDecl fn_id
          (by rintro rfl; exact absurd hd (by decide))
          (by rintro rfl; exact absurd hd (by decide))]
  by_cases h11 : fn_class = 11
  · subst h11
    show (match KernMMapFnId.tryFrom (fn_id % 65536) with
          | Except.ok fn_id => Except.ok (KernFnPath.MMap fn_id)
          | Except.error _ => Except.error ()) = Except.error ()
    rw [hm, kernMMapFnId_tryFrom_notDecl fn_id
          (by rintro rfl; exact absurd hd (by decide))
          (by rintro rfl; exact absurd hd (by decide))
          (by rintro rfl; exact absurd hd (by decide))
          (by rintro rfl; exact absurd hd (by decide))]
  by_cases h12 : fn_class = 12
  · subst h12
    show (match KernMutexFnId.tryFrom (fn_id % 65536) with
          | Except.ok fn_id => Except.ok (KernFnPath.Mutex fn_id)
          | Except.error _ => Except.error ()) = Except.error ()
    rw [hm, kernMutexFnId_tryFrom_notDecl fn_id
          (by rintro rfl; exact absurd hd (by decide))
          (by rintro rfl; exact absurd hd (by decide))
          (by rintro rfl; exact absurd hd (by decide))
          (by rintro rfl; exact absurd hd (by decide))]
  by_cases h13 : fn_class = 13
  · subst h13
    show (match KernTimeInstFnId.tryFrom (fn_id % 65536) with
          | Except.ok fn_id => Except.ok (KernFnPath.TimeInst fn_id)
          | Except.error _ => Except.error ()) = Except.error ()
    rw [hm, kernTimeInstFnId_tryFrom_notDecl fn_id
          (by rintro rfl; exact absurd hd (by decide))]
  by_cases h14 : fn_class = 14
  · subst h14
    show (match KernPathFnId.tryFrom (fn_id % 65536) with
          | Except.ok fn_id => Except.ok (KernFnPath.Path fn_id)
          | Except.error _ => Except.error ()) = Except.error ()
    rw [hm, kernPathFnId_tryFrom_notDecl fn_id
          (by rintro rfl; exact absurd hd (by decide))]
  by_cases h15 : fn_class = 15
  · subst h15
    show (match KernOsEntFnId.tryFrom (fn_id % 65536) with
          | Except.ok fn_id => Except.ok (KernFnPath.OsEntity fn_id)
          | Except.error _ => Except.error ()) = Except.error ()
    rw [hm, kernOsEntFnId_tryFrom_notDecl fn_id
          (by rintro rfl; exact absurd hd (by decide))]
  by_cases h16 : fn_class = 16
  · subst h16
    show (match KernOsUserFnId.tryFrom (fn_id % 65536) with
          | Except.ok fn_id => Except.ok (KernFnPath.OsUser fn_id)
          | Except.error _ => Except.error ()) = Except.error ()
    rw [hm, kernOsUserFnId_tryFrom_notDecl fn_id
          (by rintro rfl; exact absurd hd (by decide))]
  by_cases h17 : fn_class = 17
  · subst h17
    show (match KernOsGroupFnId.tryFrom (fn_id % 65536) with
          | Except.ok fn_id => Except.ok (KernFnPath.OsGroup fn_id)
          | Except.error _ => Except.error ()) = Except.error ()
    rw [hm, kernOsGroupFnId_tryFrom_notDecl fn_id
          (by rintro rfl; exact absurd hd (by decide))]
  by_cases h18 : fn_class = 18
  · subst h18
    show (match KernProcFnId.tryFrom (fn_id % 65536) with
          | Except.ok fn_id => Except.ok (KernFnPath.Proc fn_id)
          | Except.error _ => Except.error ()) = Except.error ()
    rw [hm, kernProcFnId_tryFrom_notDecl fn_id
          (by rintro rfl; exact absurd hd (by decide))
          (by rintro rfl; exact absurd hd (by decide))
          (by rintro rfl; exact absurd hd (by decide))]
  by_cases h19 : fn_class = 19
  · subst h19
    show (match KernThreadFnId.tryFrom (fn_id % 65536) with
          | Except.ok fn_id => Except.ok (KernFnPath.Thread fn_id)
          | Except.error _ => Except.error ()) = Except.error ()
    rw [hm, kernThreadFnId_tryFrom_notDecl fn_id
          (by rintro rfl; exact absurd hd (by decide))
          (by rintro rfl; exact absurd hd (by decide))
          (by rintro rfl; exact absurd hd (by decide))
          (by rintro rfl; exact absurd hd (by decide))]
  obtain ⟨c, rfl⟩ : ∃ c, fn_class = c + 20 :=
    ⟨fn_class - 20, by omega⟩
  exact kernFnPath_tryFrom_class_ge_twenty c fn_id

/-- C3 amended: for every declared `KernFnPath` value `p`,
`try_from((p.raw_fn_class(), p.raw_fn_id()))` returns `Ok` of the same
path; for every `(class, id)` pair with `id < 2 ^ 16` that does not
correspond to a declared class and in-class id, `try_from` returns `Err`
(ids at or above `2 ^ 16` are first truncated `as u16`). -/
theorem kernFnPath_raw_encoding_spec :
    (∀ p : KernFnPath, KernFnPath.tryFrom (p.raw_fn_class, p.raw_fn_id) = .ok p)
    ∧ (∀ fn_class fn_id : Nat, fn_id < 65536 →
        KernFnPath.declaredPair fn_class fn_id = false →
        KernFnPath.tryFrom (fn_class, fn_id) = .error ()) :=
  ⟨kernFnPath_roundtrip, kernFnPath_tryFrom_err⟩

/-- Witness for the amended C3 at the concrete path `Object(AddRef)` and
the concrete undeclared pair `(3, 999)`. -/
theorem kernFnPath_raw_encoding_spec_witness :
    KernFnPath.tryFrom
        ((KernFnPath.Object KernObjectFnId.AddRef).raw_fn_class,
         (KernFnPath.Object KernObjectFnId.AddRef).raw_fn_id)
      = .ok (KernFnPath.Object KernObjectFnId.AddRef)
    ∧ (999 : Nat) < 65536
    ∧ KernFnPath.declaredPair 3 999 = false
    ∧ KernFnPath.tryFrom (3, 999) = .error () :=
  ⟨kernFnPath_raw_encoding_spec.1 (KernFnPath.Object KernObjectFnId.AddRef),
   by decide, by decide,
   kernFnPath_raw_encoding_spec.2 3 999 (by decide) (by decide)⟩

/-- Folding `push` over a list prepends its reverse image and adds its
length to the count. -/
theorem FreeBlockList.foldl_push_eq (l : List Nat) (f : Nat → Nat)
    (fl : FreeBlockList) :
    l.foldl (fun s i => s.push (f i)) fl
      = { m_first := l.reverse.map f ++ fl.m_first,
          m_count := fl.m_count + l.length } := by
  induction l generalizing fl with
  | nil => rfl
  | cons a t ih =>
    rw [List.foldl_cons, ih]
    simp [FreeBlockList.push]
    omega

/-- Closed form of `FreeBlockList::extend`: the blocks of the usable range
appear at the head in ascending address order. -/
theorem FreeBlockList.extend_eq (fl : FreeBlockList)
    (start_area_addr area_size block_size : Nat) :
    fl.extend start_area_addr area_size block_size
      = { m_first :=
            (List.range (area_size / block_size)).map
                (fun i => start_area_addr + i * block_size)
              ++ fl.m_first,
          m_count := fl.m_count + area_size / block_size } := by
  unfold FreeBlockList.extend
  rw [FreeBlockList.foldl_push_eq, List.reverse_reverse,
    List.length_reverse, List.length_range]

/-- Dropping the sub-block-size remainder does not change the block count:
`(s - s % B) / B = s / B`. -/
theorem usable_area_div (area_size block_size : Nat) (hB : 0 < block_size) :
    (area_size - area_size % block_size) / block_size
      = area_size / block_size := by
  have hdm := Nat.div_add_mod area_size block_size
  have h1 : area_size - area_size % block_size
      = block_size * (area_size / block_size) := by omega
  rw [h1, Nat.mul_div_cancel_left _ hB]

/-- Source `(10 * B + 3) % B = 3` once `3 < B`. -/
theorem ten_blocks_three_mod (block_size : Nat) (h3 : 3 < block_size) :
    (10 * block_size + 3) % block_size = 3 := by
  rw [Nat.add_comm, Nat.add_mul_mod_self_right]
  exact Nat.mod_eq_of_lt h3

/-- Source `(10 * B + 3) / B = 10` once `3 < B`. -/
theorem ten_blocks_three_div (block_size : Nat) (hB : 0 < block_size)
    (h3 : 3 < block_size) : (10 * block_size + 3) / block_size = 10 := by
  rw [Nat.add_comm, Nat.add_mul_div_right _ _ hB, Nat.div_eq_of_lt h3,
    Nat.zero_add]

/-- C4 counterexample: with block size `1` and region size
`10 * 1 + 3 = 13`, the remainder is not 3 bytes: `13 % 1 = 0`, so
`add_region` returns no remainder and `free_count` grows by 13, not 10. -/
theorem slab_add_region_ten_blocks_cex :
    ((Slab.mk ⟨[], 0⟩).add_region 1 0 (10 * 1 + 3)).2 = none
    ∧ ((Slab.mk ⟨[], 0⟩).add_region 1 0 (10 * 1 + 3)).1.free_count = 13 := by
  constructor
  · rfl
  · rfl

/-- C4 amended: for every slab with block size `B > 0` and every
`add_region` over a region of size `s`, the call returns
`Some((start + (s - s % B), s % B))` exactly when `s % B ≠ 0` and `None`
when `s % B = 0`, and `free_count` grows by exactly `s / B`; in
particular, whenever additionally `3 < B` and `s = 10 * B + 3`, the
remainder is exactly 3 bytes at `start + 10 * B` and `free_count` grows
by exactly 10. -/
theorem slab_add_region_spec (BLOCK_SIZE : Nat) (hB : 0 < BLOCK_SIZE)
    (s : Slab) (start_area_ptr area_size : Nat) :
    ((s.add_region BLOCK_SIZE start_area_ptr area_size).2
        = if area_size % BLOCK_SIZE ≠ 0
            then some (start_area_ptr + (area_size - area_size % BLOCK_SIZE),
                       area_size % BLOCK_SIZE)
            else none)
    ∧ (s.add_region BLOCK_SIZE start_area_ptr area_size).1.free_count
        = s.free_count + area_size / BLOCK_SIZE
    ∧ (3 < BLOCK_SIZE → area_size = 10 * BLOCK_SIZE + 3 →
        (s.add_region BLOCK_SIZE start_area_ptr area_size).2
            = some (start_area_ptr + 10 * BLOCK_SIZE, 3)
          ∧ (s.add_region BLOCK_SIZE start_area_ptr area_size).1.free_count
              = s.free_count + 10) := by
  by_cases hz : area_size % BLOCK_SIZE = 0
  · refine ⟨?_, ?_, ?_⟩
    · simp [Slab.add_region, hz]
    · simp [Slab.add_region, hz, Slab.free_count, FreeBlockList.extend_eq]
    · intro h3 hsz
      subst hsz
      rw [ten_blocks_three_mod BLOCK_SIZE h3] at hz
      exact absurd hz (by decide)
  · have hpos : 0 < area_size % BLOCK_SIZE := Nat.pos_of_ne_zero hz
    refine ⟨?_, ?_, ?_⟩
    · simp [Slab.add_region, hpos, hz]
    · simp [Slab.add_region, hpos, Slab.free_count, FreeBlockList.extend_eq,
        usable_area_div area_size BLOCK_SIZE hB]
    · intro h3 hsz
      subst hsz
      constructor
      · simp [Slab.add_region, hpos,
          ten_blocks_three_mod BLOCK_SIZE h3]
      · simp [Slab.add_region, hpos, Slab.free_count,
          FreeBlockList.extend_eq,
          usable_area_div (10 * BLOCK_SIZE + 3) BLOCK_SIZE hB,
          ten_blocks_three_div BLOCK_SIZE hB h3]

/-- Witness for the amended C4 at block size 16, start 4096 and region
size `10 * 16 + 3 = 163`. -/
theorem slab_add_region_spec_witness :
    (0 : Nat) < 16 ∧ 3 < 16 ∧ (163 : Nat) = 10 * 16 + 3
    ∧ ((Slab.mk ⟨[], 0⟩).add_region 16 4096 163).2 = some (4096 + 10 * 16, 3)
    ∧ ((Slab.mk ⟨[], 0⟩).add_region 16 4096 163).1.free_count
        = (Slab.mk ⟨[], 0⟩).free_count + 10 :=
  ⟨by decide, by decide, by decide,
   (slab_add_region_spec 16 (by decide) (Slab.mk ⟨[], 0⟩) 4096 163).2.2
     (by decide) (by decide)⟩

/-- A slab constructed over `4 * BLOCK_SIZE` bytes holds exactly the four
block addresses, lowest first. -/
theorem slab_new_four_blocks (BLOCK_SIZE start_area_addr : Nat)
    (hB : 0 < BLOCK_SIZE) :
    Slab.new BLOCK_SIZE start_area_addr (4 * BLOCK_SIZE)
      = Slab.mk ⟨[start_area_addr,
                  start_area_addr + BLOCK_SIZE,
                  start_area_addr + 2 * BLOCK_SIZE,
                  start_area_addr + 3 * BLOCK_SIZE], 4⟩ := by
  have hdiv : 4 * BLOCK_SIZE / BLOCK_SIZE = 4 := by
    rw [Nat.mul_comm]
    exact Nat.mul_div_cancel_left _ hB
  unfold Slab.new FreeBlockList.new
  rw [FreeBlockList.extend_eq, hdiv]
  norm_num [List.range_succ]

/-- C5: over a `4 * BLOCK_SIZE` region, `free_count` starts at 4, one
`allocate` returns the lowest block address and leaves 3, `deallocate` of
that pointer restores 4, and the next `allocate` returns the same pointer
(LIFO reuse of the free-list head). -/
theorem slab_round_trip (BLOCK_SIZE start_area_addr : Nat)
    (hB : 0 < BLOCK_SIZE) (layout : Layout) :
    (Slab.new BLOCK_SIZE start_area_addr (4 * BLOCK_SIZE)).free_count = 4
    ∧ ((Slab.new BLOCK_SIZE start_area_addr (4 * BLOCK_SIZE)).allocate
          layout).1 = some start_area_addr
    ∧ ((Slab.new BLOCK_SIZE start_area_addr (4 * BLOCK_SIZE)).allocate
          layout).2.free_count = 3
    ∧ (((Slab.new BLOCK_SIZE start_area_addr (4 * BLOCK_SIZE)).allocate
          layout).2.deallocate start_area_addr layout).free_count = 4
    ∧ ((((Slab.new BLOCK_SIZE start_area_addr (4 * BLOCK_SIZE)).allocate
          layout).2.deallocate start_area_addr layout).allocate layout).1
        = some start_area_addr := by
  rw [slab_new_four_blocks BLOCK_SIZE start_area_addr hB]
  refine ⟨rfl, rfl, rfl, rfl, rfl⟩

/-- Witness for C5 at block size 16, region start 4096. -/
theorem slab_round_trip_witness :
    (0 : Nat) < 16
    ∧ (Slab.new 16 4096 (4 * 16)).free_count = 4
    ∧ ((Slab.new 16 4096 (4 * 16)).allocate ⟨16, 16⟩).1 = some 4096
    ∧ ((Slab.new 16 4096 (4 * 16)).allocate ⟨16, 16⟩).2.free_count = 3
    ∧ (((Slab.new 16 4096 (4 * 16)).allocate ⟨16, 16⟩).2.deallocate 4096
          ⟨16, 16⟩).free_count = 4
    ∧ ((((Slab.new 16 4096 (4 * 16)).allocate ⟨16, 16⟩).2.deallocate 4096
          ⟨16, 16⟩).allocate ⟨16, 16⟩).1 = some 4096 :=
  ⟨by decide, slab_round_trip 16 4096 (by decide) ⟨16, 16⟩⟩

/-- Source `Slab::allocate` returns the head of the free list. -/
theorem Slab.allocate_fst (s : Slab) (layout : Layout) :
    (s.allocate layout).1 = s.m_free_blocks.m_first.head? := by
  cases h : s.m_free_blocks.m_first <;>
    simp [Slab.allocate, FreeBlockList.pop, h]

/-- After `k` allocations the free list is the original list with its
first `k` entries dropped. -/
theorem Slab.allocIter_m_first (s : Slab) (layout : Layout) (k : Nat) :
    (s.allocIter layout k).m_free_blocks.m_first
      = s.m_free_blocks.m_first.drop k := by
  induction k with
  | zero => simp [Slab.allocIter]
  | succ n ih =>
    have hdrop : s.m_free_blocks.m_first.drop (n + 1)
        = ((s.allocIter layout n).m_free_blocks.m_first).tail := by
      rw [ih, List.tail_drop]
    rw [Slab.allocIter, hdrop]
    cases h : (s.allocIter layout n).m_free_blocks.m_first with
    | nil => simp [Slab.allocate, FreeBlockList.pop, h]
    | cons b rest => simp [Slab.allocate, FreeBlockList.pop, h]

/-- C6: `add_region` threads the usable range onto the free list in
reverse address order, so immediately after an extension the `j`-th
successive allocation returns the `j`-th lowest block address: blocks come
back at ascending addresses. -/
theorem slab_extension_pops_ascending (BLOCK_SIZE : Nat)
    (hB : 0 < BLOCK_SIZE) (s : Slab) (start_area_ptr area_size : Nat)
    (layout : Layout) (j : Nat) (hj : j < area_size / BLOCK_SIZE) :
    (((s.add_region BLOCK_SIZE start_area_ptr area_size).1.allocIter
          layout j).allocate layout).1
      = some (start_area_ptr + j * BLOCK_SIZE) := by
  have hfb : (s.add_region BLOCK_SIZE start_area_ptr
        area_size).1.m_free_blocks.m_first
      = (List.range (area_size / BLOCK_SIZE)).map
            (fun i => start_area_ptr + i * BLOCK_SIZE)
          ++ s.m_free_blocks.m_first := by
    by_cases hz : area_size % BLOCK_SIZE = 0
    · simp [Slab.add_region, hz, FreeBlockList.extend_eq]
    · have hpos := Nat.pos_of_ne_zero hz
      simp [Slab.add_region, hpos, FreeBlockList.extend_eq,
        usable_area_div area_size BLOCK_SIZE hB]
  rw [Slab.allocate_fst, Slab.allocIter_m_first, hfb, List.head?_drop]
  have hlen : j < ((List.range (area_size / BLOCK_SIZE)).map
      (fun i => start_area_ptr + i * BLOCK_SIZE)).length := by
    simpa using hj
  rw [List.getElem?_append_left hlen]
  simp [List.getElem?_map, List.getElem?_range, hj]

/-- Witness for C6: extend an empty slab (block size 16) with 64 bytes at
4096 and take the allocation at index 2. -/
theorem slab_extension_pops_ascending_witness :
    (0 : Nat) < 16 ∧ (2 : Nat) < 64 / 16
    ∧ ((((Slab.mk ⟨[], 0⟩).add_region 16 4096 64).1.allocIter
          ⟨16, 16⟩ 2).allocate ⟨16, 16⟩).1 = some (4096 + 2 * 16) :=
  ⟨by decide, by decide,
   slab_extension_pops_ascending 16 (by decide) (Slab.mk ⟨[], 0⟩) 4096 64
     ⟨16, 16⟩ 2 (by decide)⟩

/-- C7 counterexample: a slab with 16-byte blocks serves a request whose
layout size (1000) far exceeds the block size — `allocate` performs no
check that the block size suffices for the request. -/
theorem slab_allocate_no_layout_check_cex :
    ((Slab.new 16 4096 64).allocate ⟨1000, 8⟩).1 = some 4096 := by
  decide

/-- C7 amended: `Slab::allocate` pops the head of the free list, returns
`None` exactly when the free list is empty, leaves the slab unchanged on
failure (it never grows itself), and ignores the requested layout
entirely — it performs no verification that the block size suffices
(size-class suitability is the calling heap's responsibility). -/
theorem slab_allocate_contract (s : Slab) (layout other_layout : Layout) :
    s.allocate layout = s.allocate other_layout
    ∧ (s.allocate layout).1 = s.m_free_blocks.m_first.head?
    ∧ ((s.allocate layout).1 = none ↔ s.m_free_blocks.m_first = [])
    ∧ ((s.allocate layout).1 = none → (s.allocate layout).2 = s)
    ∧ (s.allocate layout).2.free_count ≤ s.free_count := by
  cases h : s.m_free_blocks.m_first <;>
    simp [Slab.allocate, FreeBlockList.pop, h, Slab.free_count]

/-- Witness for the amended C7: on an empty slab both requests yield
`None` and the slab is unchanged. -/
theorem slab_allocate_contract_witness :
    ((Slab.mk ⟨[], 0⟩).allocate ⟨8, 8⟩).1 = none
    ∧ ((Slab.mk ⟨[], 0⟩).allocate ⟨8, 8⟩).2 = Slab.mk ⟨[], 0⟩ :=
  ⟨by decide,
   (slab_allocate_contract (Slab.mk ⟨[], 0⟩) ⟨8, 8⟩ ⟨64, 64⟩).2.2.2.1
     (by decide)⟩

/-- C8: the `Drop` kernel call is issued exactly when `is_valid()` holds;
dropping an invalid handle issues no `Drop` call (silent no-op), and
dropping a handle with raw id zero performs zero kernel calls (the zero
check short-circuits before any kernel query). -/
theorem objId_drop_only_when_valid (k : ObjFnId → Except Unit Nat)
    (o : ObjId) :
    (ObjFnId.Drop ∈ ObjId.drop k o
        ↔ (ObjId.is_valid k o).1 = true)
    ∧ ((ObjId.is_valid k o).1 = false →
        ObjId.drop k o = (ObjId.is_valid k o).2)
    ∧ (o.m_raw = 0 → ObjId.drop k o = []) := by
  by_cases hz : o.m_raw = 0
  · simp [ObjId.drop, ObjId.is_valid, hz]
  · cases hk : k (ObjFnId.IsValid) <;>
      simp [ObjId.drop, ObjId.is_valid, hz, hk]

/-- Witness for C8: a zero handle performs zero kernel calls, a valid
handle issues `IsValid` then `Drop`. -/
theorem objId_drop_only_when_valid_witness :
    ObjId.drop (fun _ => Except.ok 0) ⟨0⟩ = []
    ∧ ObjId.drop (fun _ => Except.ok 0) ⟨7⟩
        = [ObjFnId.IsValid,
           ObjFnId.Drop] :=
  ⟨(objId_drop_only_when_valid (fun _ => Except.ok 0) ⟨0⟩).2.2 rfl,
   by decide⟩

/-- C10: `Clone` issues exactly one `AddRef` kernel call (so any kernel
that adds one per `AddRef` sees its count grow by exactly 1), returns a
new handle with the same raw id when the call succeeds, and panics
(`unwrap`) rather than returning a recoverable error when it fails. -/
theorem objId_clone_spec (k : ObjFnId → Except Unit Nat) (o : ObjId)
    (initial : Nat) :
    (ObjId.clone k o).2 = [ObjFnId.AddRef]
    ∧ mockRefCount initial (ObjId.clone k o).2 = initial + 1
    ∧ (∀ n, k (ObjFnId.AddRef) = .ok n →
        (ObjId.clone k o).1 = some ⟨o.m_raw⟩)
    ∧ (∀ e, k (ObjFnId.AddRef) = .error e →
        (ObjId.clone k o).1 = none) := by
  cases hk : k (ObjFnId.AddRef) <;>
    simp [ObjId.clone, hk, mockRefCount]

/-- Witness for C10 with an always-succeeding oracle and initial mock
refcount 5. -/
theorem objId_clone_spec_witness :
    (ObjId.clone (fun _ => Except.ok 0) ⟨7⟩).2
        = [ObjFnId.AddRef]
    ∧ mockRefCount 5 (ObjId.clone (fun _ => Except.ok 0) ⟨7⟩).2 = 5 + 1
    ∧ (ObjId.clone (fun _ => Except.ok 0) ⟨7⟩).1 = some ⟨7⟩ :=
  ⟨(objId_clone_spec (fun _ => Except.ok 0) ⟨7⟩ 5).1,
   (objId_clone_spec (fun _ => Except.ok 0) ⟨7⟩ 5).2.1,
   (objId_clone_spec (fun _ => Except.ok 0) ⟨7⟩ 5).2.2.1 0 rfl⟩

/-- C9: deallocating a null pointer is a fatal usage error (the source
panics), while an allocation the heap cannot serve returns a null pointer
to the caller instead of panicking. -/
theorem lockedHeap_alloc_dealloc_contract
    (heap_allocate : Layout → Option Nat) (layout : Layout) (ptr : Nat) :
    RawLazyLockedHeap.dealloc 0 layout = DeallocOutcome.panicked
    ∧ (ptr ≠ 0 →
        RawLazyLockedHeap.dealloc ptr layout
          = DeallocOutcome.deallocated ptr layout)
    ∧ (heap_allocate layout = none →
        RawLazyLockedHeap.alloc heap_allocate layout = 0)
    ∧ (∀ nn_ptr, heap_allocate layout = some nn_ptr →
        RawLazyLockedHeap.alloc heap_allocate layout = nn_ptr) := by
  refine ⟨rfl, ?_, ?_, ?_⟩
  · intro h
    simp [RawLazyLockedHeap.dealloc, NonNull.new, h]
  · intro h
    simp [RawLazyLockedHeap.alloc, h]
  · intro nn_ptr h
    simp [RawLazyLockedHeap.alloc, h]

/-- Witness for C9: null dealloc panics, non-null dealloc reaches the
heap, exhausted allocation returns the null pointer. -/
theorem lockedHeap_alloc_dealloc_contract_witness :
    RawLazyLockedHeap.dealloc 0 ⟨8, 8⟩ = DeallocOutcome.panicked
    ∧ RawLazyLockedHeap.dealloc 4096 ⟨8, 8⟩
        = DeallocOutcome.deallocated 4096 ⟨8, 8⟩
    ∧ RawLazyLockedHeap.alloc (fun _ => none) ⟨8, 8⟩ = 0 :=
  ⟨(lockedHeap_alloc_dealloc_contract (fun _ => none) ⟨8, 8⟩ 4096).1,
   (lockedHeap_alloc_dealloc_contract (fun _ => none) ⟨8, 8⟩ 4096).2.1
     (by decide),
   (lockedHeap_alloc_dealloc_contract (fun _ => none) ⟨8, 8⟩ 4096).2.2.1
     rfl⟩
